import Mathlib

/-!
Verification of the authentication and brute-force-lockout subsystem of the
class-website backend.

The embedding below follows the session-cookie stack (`src/auth.py`,
`src/admin.py`, `src/models.py`), which the specification designates as the
reference lockout implementation, together with the bearer-token guard of
`src/auth_fastapi.py`.

Modelling conventions:
  - The `Config` key-value table (`models.py`, class `Config`) is a function
    `String → Option String`; `Config.get`/`Config.set` mirror the static
    methods of the source.
  - Python truthiness of an optional string (`if locked_until_s:`) is:
    present and non-empty.
  - Python `str.strip()`, `int(s)` and `str(n)` are modelled by `pyStrip`,
    `pyParseInt` and `intToStr`, defined structurally over the character
    data so that they evaluate inside the kernel.  On every value the code
    itself writes (`str(n)` of an `int`) and on plain decimal literals they
    agree with Python; `int(s)` raising `ValueError` is `none`, taken to the
    `except` branch by the caller.
  - `datetime.utcnow().timestamp()` is an explicit `nowTs : Int` parameter;
    the environment-derived knobs (`LOGIN_MAX_TRIES`, `LOGIN_LOCK_SECONDS`)
    are explicit parameters with defaults 6 and 900.
  - The user table (`User.query.filter_by(account=acc).first()`) is a
    function `String → Option UserRec`; `User.check_password` (an external
    werkzeug collaborator) is an explicit function parameter.
-/

/-- Python `str.strip()`: drop whitespace from both ends. -/
def pyStrip (s : String) : String :=
  ⟨((s.data.dropWhile Char.isWhitespace).reverse.dropWhile Char.isWhitespace).reverse⟩

/-- Python `int()` on a plain non-negative decimal literal: all characters
are digits and there is at least one. -/
def pyParseNat (l : List Char) : Option Nat :=
  if l = [] then none
  else if l.all Char.isDigit then
    some (l.foldl (fun a c => a * 10 + (c.toNat - 48)) 0)
  else none

/-- Python `int(s)`: an optional leading `'-'` followed by a decimal
literal; anything else raises, modelled as `none`. -/
def pyParseInt (s : String) : Option Int :=
  match s.data with
  | [] => none
  | c :: rest =>
    if c = '-' then (pyParseNat rest).map (fun n => -(n : Int))
    else (pyParseNat (c :: rest)).map (fun n => (n : Int))

/-- Decimal digits of `n`, most significant first, fuel-based exactly like
`Nat.toDigitsCore`; any fuel above `n` is enough. -/
def natToCharsAux : Nat → Nat → List Char → List Char
  | 0, _, acc => acc
  | fuel + 1, n, acc =>
    if n < 10 then Nat.digitChar n :: acc
    else natToCharsAux fuel (n / 10) (Nat.digitChar (n % 10) :: acc)

/-- Decimal rendering of a natural number. -/
def natToChars (n : Nat) : List Char := natToCharsAux (n + 1) n []

/-- Python `str()` of an `int`: minus sign for negatives, plain decimal
digits otherwise. -/
def intToStr : Int → String
  | .ofNat n => ⟨natToChars n⟩
  | .negSucc m => ⟨'-' :: natToChars (m + 1)⟩

/-- User record, from `models.py` class `User` (id, account, name nullable,
role, password_hash, enabled). -/
structure UserRec where
  id : Int
  account : String
  name : Option String
  role : String
  password_hash : String
  enabled : Bool
deriving Repr, DecidableEq

/-- The `config` key-value table of `models.py`: key → nullable text value.
A key that has never been set maps to `none`. -/
def ConfigStore : Type := String → Option String

namespace Config

/-- `Config.get` of `models.py`: the stored value, or the default (`none`). -/
def get (store : ConfigStore) (key : String) : Option String := store key

/-- `Config.set` of `models.py`: upsert of the value under the key. -/
def set (store : ConfigStore) (key : String) (value : String) : ConfigStore :=
  fun k => if k = key then some value else store k

theorem get_set_same (store : ConfigStore) (key value : String) :
    get (set store key value) key = some value := by
  simp [get, set]

theorem get_set_other (store : ConfigStore) (key value k : String) (h : k ≠ key) :
    get (set store key value) k = get store k := by
  simp [get, set, h]

end Config

/-- The per-account lock key `f"login_lock:{acc}"` of `auth.py`. -/
def lockKeyOf (acc : String) : String := "login_lock:" ++ acc

/-- The per-account failure-count key `f"login_fail:{acc}"` of `auth.py`. -/
def failKeyOf (acc : String) : String := "login_fail:" ++ acc

/-- `auth.py` lines 30–38: the lock short-circuit test. The stored value is
truthy (present, non-empty), parses as an integer, and `now_ts` is strictly
below it; a parse failure takes the `except: pass` branch and does not lock. -/
def lockActive (cfg : ConfigStore) (acc : String) (nowTs : Int) : Bool :=
  match Config.get cfg (lockKeyOf acc) with
  | none => false
  | some s =>
    if s = "" then false
    else
      match pyParseInt s with
      | none => false
      | some lockedUntil => decide (nowTs < lockedUntil)

/-- `auth.py` lines 43–46: `cur = int(Config.get(fail_key) or '0')` with the
`except` branch yielding `0`. -/
def readFailCount (cfg : ConfigStore) (acc : String) : Int :=
  let raw :=
    match Config.get cfg (failKeyOf acc) with
    | none => "0"
    | some s => if s = "" then "0" else s
  (pyParseInt raw).getD 0

/-- `auth.py` lines 42–52: the failed-attempt ledger update. Increment the
counter; if the post-increment value reaches `maxTries`, set the lock key to
`str(now_ts + LOCK_SECONDS)` and reset the counter to `'0'`. -/
def recordFailure (cfg : ConfigStore) (acc : String)
    (maxTries lockSeconds nowTs : Int) : ConfigStore :=
  let cur := readFailCount cfg acc + 1
  let cfg1 := Config.set cfg (failKeyOf acc) (intToStr cur)
  if maxTries ≤ cur then
    Config.set (Config.set cfg1 (lockKeyOf acc) (intToStr (nowTs + lockSeconds)))
      (failKeyOf acc) "0"
  else cfg1

/-- The five response shapes of `auth.py` `login`, each carrying the literal
message (or, for success, the user of the 200 payload). -/
inductive LoginResult where
  | badRequest (msg : String)
  | locked (msg : String)
  | rejected (msg : String)
  | disabled (msg : String)
  | success (user : UserRec)
deriving Repr, DecidableEq

/-- HTTP status code attached to each response of `auth.py` `login`. -/
def LoginResult.status : LoginResult → Nat
  | .badRequest _ => 400
  | .locked _ => 429
  | .rejected _ => 401
  | .disabled _ => 403
  | .success _ => 200

/-- Result of one `login` call: the HTTP response, the `config` table after
commit, and the session `uid` set on success (`session["uid"] = user.id`). -/
structure LoginOutcome where
  result : LoginResult
  config : ConfigStore
  sessionUid : Option Int

/-- `auth.py` `login` (lines 9–75). `users` is the user table lookup by
account, `checkPassword` is `User.check_password`. The account string is
stripped, empty inputs are rejected with 400, an active lock short-circuits
to 429, a missing user or failing password takes the failure branch (401), a
disabled user gets the distinct 403, and success clears the ledger and sets
the session uid. -/
def login (users : String → Option UserRec) (checkPassword : UserRec → String → Bool)
    (maxTries lockSeconds : Int) (cfg : ConfigStore) (nowTs : Int)
    (accRaw pw : String) : LoginOutcome :=
  let acc := pyStrip accRaw
  if acc = "" ∨ pw = "" then
    ⟨.badRequest "請提供帳號與密碼", cfg, none⟩
  else if lockActive cfg acc nowTs then
    ⟨.locked "帳號暫時鎖定，請稍後再試", cfg, none⟩
  else
    let failOutcome : LoginOutcome :=
      ⟨.rejected "帳號或密碼錯誤", recordFailure cfg acc maxTries lockSeconds nowTs, none⟩
    match users acc with
    | none => failOutcome
    | some user =>
      if checkPassword user pw then
        if user.enabled then
          ⟨.success user,
           Config.set (Config.set cfg (failKeyOf acc) "0") (lockKeyOf acc) "",
           some user.id⟩
        else ⟨.disabled "帳號已停用", cfg, none⟩
      else failOutcome

/-- Responses of `auth.py` `me` (lines 77–100): the `jsonify(None)` body when
the session uid is falsy, the user payload `{id, account, name, role}`, or
the `AttributeError` raised by `u.id` when `User.query.get(uid)` returns
`None` (surfacing as a 500, not as the null body). -/
inductive MeResult where
  | nullResponse
  | payload (id : Int) (account : String) (name : Option String) (role : String)
  | attributeError
deriving Repr, DecidableEq

/-- `auth.py` `me`: `uid = session.get("uid")`; `if not uid` (falsy: absent
or zero) returns the null body; otherwise the user record is dereferenced
unconditionally. -/
def me (users : Int → Option UserRec) (sessionUid : Option Int) : MeResult :=
  match sessionUid with
  | none => .nullResponse
  | some uid =>
    if uid = 0 then .nullResponse
    else
      match users uid with
      | none => .attributeError
      | some u => .payload u.id u.account u.name u.role

/-- `admin.py` `current_user` (lines 24–29): resolve `session['uid']` by a
fresh `User.query.get(uid)`; a falsy uid resolves to no user. -/
def current_user (users : Int → Option UserRec) (sessionUid : Option Int) :
    Option UserRec :=
  match sessionUid with
  | none => none
  | some uid => if uid = 0 then none else users uid

/-- Outcome of the `admin.py` session guard: 401 when not logged in, 403 when
the role is outside the required set, otherwise the handler runs as the user. -/
inductive GuardResult where
  | unauthenticated (msg : String)
  | forbidden (msg : String)
  | authorized (u : UserRec)
deriving Repr, DecidableEq

/-- `admin.py` `require_roles` (lines 31–42): resolve the session user; reject
with 401 when absent; reject with 403 when `roles` is non-empty and the user's
role is not among them; otherwise authorize. Note the source checks only
`u.role`, never `u.enabled`. -/
def require_roles (roles : List String) (users : Int → Option UserRec)
    (sessionUid : Option Int) : GuardResult :=
  match current_user users sessionUid with
  | none => .unauthenticated "請先登入"
  | some u =>
    if roles ≠ [] ∧ u.role ∉ roles then .forbidden "權限不足"
    else .authorized u

/-- Outcome of `auth_fastapi.py` `get_current_user`: the 401 credentials
exception, the 403 disabled exception, or the resolved user. -/
inductive TokenGuardResult where
  | credentialsException
  | disabledException
  | ok (u : UserRec)
deriving Repr, DecidableEq

/-- `auth_fastapi.py` `get_current_user` (lines 66–92). The JWT decode is
modelled by its observable result `decoded`: `none` for a `JWTError`,
`some none` for a payload without `"sub"`, `some (some account)` otherwise.
The user is then freshly read from the table and the `enabled` flag is
re-checked on every call. -/
def get_current_user (users : String → Option UserRec)
    (decoded : Option (Option String)) : TokenGuardResult :=
  match decoded with
  | none => .credentialsException
  | some none => .credentialsException
  | some (some account) =>
    match users account with
    | none => .credentialsException
    | some user =>
      if user.enabled = false then .disabledException
      else .ok user

/-! ### Concrete fixtures used by witnesses and counterexamples -/

/-- An enabled teacher account. -/
def aliceUser : UserRec :=
  { id := 1, account := "alice", name := some "Alice", role := "teacher",
    password_hash := "h1", enabled := true }

/-- A disabled account. -/
def bobUser : UserRec :=
  { id := 2, account := "bob", name := some "Bob", role := "teacher",
    password_hash := "h2", enabled := false }

/-- A concrete user table holding `alice` (enabled) and `bob` (disabled). -/
def usersEx : String → Option UserRec :=
  fun a => if a = "alice" then some aliceUser
    else if a = "bob" then some bobUser else none

/-- A concrete user table by id holding the same two users. -/
def usersByIdEx : Int → Option UserRec :=
  fun i => if i = 1 then some aliceUser
    else if i = 2 then some bobUser else none

/-- A stub password verifier: the stored hash is ignored and the password
`"secret"` is the correct one (standing in for `werkzeug.check_password_hash`). -/
def cpEx : UserRec → String → Bool := fun _ pw => pw = "secret"

/-- An empty config table. -/
def emptyCfg : ConfigStore := fun _ => none

/-- A config table in which `alice` is locked until timestamp 1000. -/
def lockedCfg : ConfigStore :=
  fun k => if k = "login_lock:alice" then some "1000" else none

/-- A config table in which `carol` has 5 recorded failures. -/
def fail5Cfg : ConfigStore :=
  fun k => if k = "login_fail:carol" then some "5" else none

/-- A config table in which `carol` has a lock that expired at timestamp 50. -/
def expiredCfg : ConfigStore :=
  fun k => if k = "login_lock:carol" then some "50" else none

/-! ### Decimal round-trip: `int(str(n)) == n`

The ledger stores counters and lock timestamps as decimal strings
(`Config.set(lock_key, str(lock_ts))`) and re-parses them on the next
attempt, so the embedding needs the rendering/parsing round-trip. -/

theorem digitChar_isDigit {d : Nat} (h : d < 10) :
    (Nat.digitChar d).isDigit = true := by
  interval_cases d <;> decide

theorem digitChar_toNat {d : Nat} (h : d < 10) :
    (Nat.digitChar d).toNat - 48 = d := by
  interval_cases d <;> decide

theorem natToCharsAux_eq_digits :
    ∀ (fuel n : Nat) (acc : List Char), n < fuel → 0 < n →
      natToCharsAux fuel n acc
        = ((Nat.digits 10 n).reverse.map Nat.digitChar) ++ acc := by
  intro fuel
  induction fuel with
  | zero => intro n acc h _; omega
  | succ fuel ih =>
    intro n acc hlt hpos
    rw [natToCharsAux]
    by_cases h10 : n < 10
    · rw [if_pos h10, Nat.digits_def' (by norm_num : (1 : Nat) < 10) hpos,
        Nat.div_eq_of_lt h10, Nat.mod_eq_of_lt h10]
      simp
    · rw [if_neg h10]
      have hdivpos : 0 < n / 10 := Nat.div_pos (le_of_not_lt h10) (by norm_num)
      have hdivlt : n / 10 < fuel := by
        have : n / 10 < n := Nat.div_lt_self hpos (by norm_num)
        omega
      rw [ih (n / 10) _ hdivlt hdivpos,
        Nat.digits_def' (by norm_num : (1 : Nat) < 10) hpos]
      simp

theorem natToChars_pos (n : Nat) (h : 0 < n) :
    natToChars n = (Nat.digits 10 n).reverse.map Nat.digitChar := by
  rw [natToChars, natToCharsAux_eq_digits (n + 1) n [] (Nat.lt_succ_self n) h,
    List.append_nil]

theorem natToChars_ne_nil (n : Nat) : natToChars n ≠ [] := by
  rcases Nat.eq_zero_or_pos n with h | h
  · subst h; decide
  · rw [natToChars_pos n h]
    simp [Nat.digits_ne_nil_iff_ne_zero, Nat.pos_iff_ne_zero.mp h]

theorem natToChars_all_digits (n : Nat) :
    (natToChars n).all Char.isDigit = true := by
  rcases Nat.eq_zero_or_pos n with h | h
  · subst h; decide
  · rw [natToChars_pos n h, List.all_eq_true]
    intro c hc
    rw [List.mem_map] at hc
    obtain ⟨d, hd, rfl⟩ := hc
    exact digitChar_isDigit
      (Nat.digits_lt_base (by norm_num) (List.mem_reverse.mp hd))

theorem foldl_digits (L : List Nat) (hd : ∀ d ∈ L, d < 10) (a : Nat) :
    (L.reverse.map Nat.digitChar).foldl (fun a c => a * 10 + (c.toNat - 48)) a
      = a * 10 ^ L.length + Nat.ofDigits 10 L := by
  induction L generalizing a with
  | nil => simp
  | cons d t ih =>
    have hd' : ∀ x ∈ t, x < 10 := fun x hx => hd x (List.mem_cons_of_mem _ hx)
    have hdd : d < 10 := hd d (List.mem_cons_self _ _)
    rw [List.reverse_cons, List.map_append, List.foldl_append, ih hd' a]
    simp only [List.map_cons, List.map_nil, List.foldl_cons, List.foldl_nil,
      digitChar_toNat hdd, Nat.ofDigits_cons, List.length_cons]
    ring

theorem pyParseNat_natToChars (n : Nat) : pyParseNat (natToChars n) = some n := by
  rcases Nat.eq_zero_or_pos n with h | h
  · subst h; decide
  · rw [pyParseNat, if_neg (natToChars_ne_nil n)]
    rw [if_pos (natToChars_all_digits n), natToChars_pos n h,
      foldl_digits _ (fun d hd => Nat.digits_lt_base (by norm_num) hd) 0]
    simp [Nat.ofDigits_digits]

theorem pyParseInt_intToStr (i : Int) : pyParseInt (intToStr i) = some i := by
  cases i with
  | ofNat n =>
    show pyParseInt ⟨natToChars n⟩ = some (Int.ofNat n)
    obtain ⟨c, rest, hcr⟩ := List.exists_cons_of_ne_nil (natToChars_ne_nil n)
    have hcd : c.isDigit = true := by
      have := natToChars_all_digits n
      rw [hcr, List.all_cons, Bool.and_eq_true] at this
      exact this.1
    have hcne : c ≠ '-' := by
      intro h; subst h; exact absurd hcd (by decide)
    rw [pyParseInt]
    simp only [hcr]
    rw [if_neg hcne, ← hcr, pyParseNat_natToChars n]
    rfl
  | negSucc m =>
    show pyParseInt ⟨'-' :: natToChars (m + 1)⟩ = some (Int.negSucc m)
    rw [pyParseInt]
    simp [pyParseNat_natToChars (m + 1), Int.negSucc_eq]

theorem intToStr_ne_empty (i : Int) : intToStr i ≠ "" := by
  cases i with
  | ofNat n =>
    intro h
    exact natToChars_ne_nil n (congrArg String.data h)
  | negSucc m =>
    intro h
    simpa [intToStr] using congrArg String.data h

theorem failKeyOf_ne_lockKeyOf (acc : String) : failKeyOf acc ≠ lockKeyOf acc := by
  intro h
  have hd := congrArg String.data h
  rw [failKeyOf, lockKeyOf, String.data_append, String.data_append] at hd
  exact absurd (List.append_cancel_right hd) (by decide)

/-! ### Branch lemmas for `login` -/

theorem pyParseInt_empty : pyParseInt "" = none := by decide

theorem lockActive_true (cfg : ConfigStore) (acc : String) (nowTs : Int)
    (s : String) (le : Int)
    (hs : Config.get cfg (lockKeyOf acc) = some s)
    (hp : pyParseInt s = some le) (hlt : nowTs < le) :
    lockActive cfg acc nowTs = true := by
  have hne : s ≠ "" := by
    intro h
    rw [h, pyParseInt_empty] at hp
    simp at hp
  rw [lockActive, hs]
  simp [hne, hp, hlt]

theorem lockActive_false_expired (cfg : ConfigStore) (acc : String) (nowTs : Int)
    (s : String) (le : Int)
    (hs : Config.get cfg (lockKeyOf acc) = some s)
    (hp : pyParseInt s = some le) (hge : le ≤ nowTs) :
    lockActive cfg acc nowTs = false := by
  rw [lockActive, hs]
  by_cases h : s = ""
  · simp [h]
  · simp [h, hp, not_lt.mpr hge]

theorem login_locked_branch (users : String → Option UserRec)
    (cp : UserRec → String → Bool) (mt ls : Int) (cfg : ConfigStore)
    (nowTs : Int) (accRaw pw : String)
    (h1 : pyStrip accRaw ≠ "") (h2 : pw ≠ "")
    (hl : lockActive cfg (pyStrip accRaw) nowTs = true) :
    login users cp mt ls cfg nowTs accRaw pw
      = ⟨.locked "帳號暫時鎖定，請稍後再試", cfg, none⟩ := by
  rw [login]
  simp [h1, h2, hl]

theorem login_fail_none_branch (users : String → Option UserRec)
    (cp : UserRec → String → Bool) (mt ls : Int) (cfg : ConfigStore)
    (nowTs : Int) (accRaw pw : String)
    (h1 : pyStrip accRaw ≠ "") (h2 : pw ≠ "")
    (hl : lockActive cfg (pyStrip accRaw) nowTs = false)
    (hu : users (pyStrip accRaw) = none) :
    login users cp mt ls cfg nowTs accRaw pw
      = ⟨.rejected "帳號或密碼錯誤",
         recordFailure cfg (pyStrip accRaw) mt ls nowTs, none⟩ := by
  rw [login]
  simp [h1, h2, hl, hu]

theorem login_fail_badpw_branch (users : String → Option UserRec)
    (cp : UserRec → String → Bool) (mt ls : Int) (cfg : ConfigStore)
    (nowTs : Int) (accRaw pw : String) (u : UserRec)
    (h1 : pyStrip accRaw ≠ "") (h2 : pw ≠ "")
    (hl : lockActive cfg (pyStrip accRaw) nowTs = false)
    (hu : users (pyStrip accRaw) = some u) (hcp : cp u pw = false) :
    login users cp mt ls cfg nowTs accRaw pw
      = ⟨.rejected "帳號或密碼錯誤",
         recordFailure cfg (pyStrip accRaw) mt ls nowTs, none⟩ := by
  rw [login]
  simp [h1, h2, hl, hu, hcp]

theorem login_disabled_branch (users : String → Option UserRec)
    (cp : UserRec → String → Bool) (mt ls : Int) (cfg : ConfigStore)
    (nowTs : Int) (accRaw pw : String) (u : UserRec)
    (h1 : pyStrip accRaw ≠ "") (h2 : pw ≠ "")
    (hl : lockActive cfg (pyStrip accRaw) nowTs = false)
    (hu : users (pyStrip accRaw) = some u) (hcp : cp u pw = true)
    (hen : u.enabled = false) :
    login users cp mt ls cfg nowTs accRaw pw
      = ⟨.disabled "帳號已停用", cfg, none⟩ := by
  rw [login]
  simp [h1, h2, hl, hu, hcp, hen]

theorem login_success_branch (users : String → Option UserRec)
    (cp : UserRec → String → Bool) (mt ls : Int) (cfg : ConfigStore)
    (nowTs : Int) (accRaw pw : String) (u : UserRec)
    (h1 : pyStrip accRaw ≠ "") (h2 : pw ≠ "")
    (hl : lockActive cfg (pyStrip accRaw) nowTs = false)
    (hu : users (pyStrip accRaw) = some u) (hcp : cp u pw = true)
    (hen : u.enabled = true) :
    login users cp mt ls cfg nowTs accRaw pw
      = ⟨.success u,
         Config.set (Config.set cfg (failKeyOf (pyStrip accRaw)) "0")
           (lockKeyOf (pyStrip accRaw)) "",
         some u.id⟩ := by
  rw [login]
  simp [h1, h2, hl, hu, hcp, hen]

theorem recordFailure_below (cfg : ConfigStore) (acc : String)
    (mt ls nowTs : Int) (h : readFailCount cfg acc + 1 < mt) :
    Config.get (recordFailure cfg acc mt ls nowTs) (failKeyOf acc)
      = some (intToStr (readFailCount cfg acc + 1))
    ∧ ∀ k, k ≠ failKeyOf acc →
        Config.get (recordFailure cfg acc mt ls nowTs) k = Config.get cfg k := by
  rw [recordFailure]
  simp only [if_neg (not_le.mpr h)]
  exact ⟨Config.get_set_same _ _ _, fun k hk => Config.get_set_other _ _ _ _ hk⟩

theorem recordFailure_lock (cfg : ConfigStore) (acc : String)
    (mt ls nowTs : Int) (h : mt ≤ readFailCount cfg acc + 1) :
    Config.get (recordFailure cfg acc mt ls nowTs) (failKeyOf acc) = some "0"
    ∧ Config.get (recordFailure cfg acc mt ls nowTs) (lockKeyOf acc)
        = some (intToStr (nowTs + ls)) := by
  rw [recordFailure]
  simp only [if_pos h]
  refine ⟨Config.get_set_same _ _ _, ?_⟩
  rw [Config.get_set_other _ _ _ _ (Ne.symm (failKeyOf_ne_lockKeyOf acc)),
    Config.get_set_same]

theorem login_not_locked_result (users : String → Option UserRec)
    (cp : UserRec → String → Bool) (mt ls : Int) (cfg : ConfigStore)
    (nowTs : Int) (accRaw pw : String)
    (hnl : lockActive cfg (pyStrip accRaw) nowTs = false) (m : String) :
    (login users cp mt ls cfg nowTs accRaw pw).result ≠ .locked m := by
  by_cases h0 : pyStrip accRaw = "" ∨ pw = ""
  · rw [login]
    simp [h0]
  · push_neg at h0
    cases hu : users (pyStrip accRaw) with
    | none =>
      rw [login_fail_none_branch users cp mt ls cfg nowTs accRaw pw
        h0.1 h0.2 hnl hu]
      simp
    | some u =>
      cases hcp : cp u pw with
      | false =>
        rw [login_fail_badpw_branch users cp mt ls cfg nowTs accRaw pw u
          h0.1 h0.2 hnl hu hcp]
        simp
      | true =>
        cases hen : u.enabled with
        | false =>
          rw [login_disabled_branch users cp mt ls cfg nowTs accRaw pw u
            h0.1 h0.2 hnl hu hcp hen]
          simp
        | true =>
          rw [login_success_branch users cp mt ls cfg nowTs accRaw pw u
            h0.1 h0.2 hnl hu hcp hen]
          simp

/-! ### Claim theorems -/

/-- **C1**: every failed authentication attempt (account absent or password
verification fails) increments the account's failure counter by 1 (the read
of an absent entry yields 0, so the stored value becomes 1); when the
post-increment counter reaches the threshold, the same attempt stores
lock-expiry = now + lock_duration, resets the counter to 0, and is itself
reported as Rejected (HTTP 401), never Locked; any next attempt within the
lock window — for any user table and any password verifier, hence whether
the password is correct or not — returns Locked. -/
theorem C1_threshold_lock_policy
    (users : String → Option UserRec) (cp : UserRec → String → Bool)
    (maxTries lockSeconds : Int) (cfg : ConfigStore) (nowTs : Int)
    (accRaw pw acc : String) (out : LoginOutcome)
    (haccdef : acc = pyStrip accRaw)
    (hout : out = login users cp maxTries lockSeconds cfg nowTs accRaw pw)
    (hacc : acc ≠ "") (hpw : pw ≠ "")
    (hnl : lockActive cfg acc nowTs = false)
    (hfail : users acc = none ∨ ∃ u, users acc = some u ∧ cp u pw = false) :
    out.result = .rejected "帳號或密碼錯誤"
    ∧ out.result.status = 401
    ∧ (∀ m, out.result ≠ .locked m)
    ∧ (readFailCount cfg acc + 1 < maxTries →
        Config.get out.config (failKeyOf acc)
          = some (intToStr (readFailCount cfg acc + 1))
        ∧ Config.get out.config (lockKeyOf acc) = Config.get cfg (lockKeyOf acc))
    ∧ (maxTries ≤ readFailCount cfg acc + 1 →
        Config.get out.config (lockKeyOf acc)
          = some (intToStr (nowTs + lockSeconds))
        ∧ Config.get out.config (failKeyOf acc) = some "0"
        ∧ ∀ (users' : String → Option UserRec) (cp' : UserRec → String → Bool)
            (nowTs' : Int) (pw' : String), pw' ≠ "" →
            nowTs' < nowTs + lockSeconds →
            (login users' cp' maxTries lockSeconds out.config nowTs' accRaw pw').result
              = .locked "帳號暫時鎖定，請稍後再試") := by
  subst haccdef
  have hbranch : out = ⟨.rejected "帳號或密碼錯誤",
      recordFailure cfg (pyStrip accRaw) maxTries lockSeconds nowTs, none⟩ := by
    rcases hfail with hu | ⟨u, hu, hcp⟩
    · rw [hout]
      exact login_fail_none_branch users cp maxTries lockSeconds cfg nowTs
        accRaw pw hacc hpw hnl hu
    · rw [hout]
      exact login_fail_badpw_branch users cp maxTries lockSeconds cfg nowTs
        accRaw pw u hacc hpw hnl hu hcp
  rw [hbranch]
  refine ⟨rfl, rfl, fun m h => LoginResult.noConfusion h, ?_, ?_⟩
  · intro hlt
    obtain ⟨hf, hframe⟩ :=
      recordFailure_below cfg (pyStrip accRaw) maxTries lockSeconds nowTs hlt
    exact ⟨hf, hframe _ (Ne.symm (failKeyOf_ne_lockKeyOf _))⟩
  · intro hge
    obtain ⟨hf0, hlock⟩ :=
      recordFailure_lock cfg (pyStrip accRaw) maxTries lockSeconds nowTs hge
    refine ⟨hlock, hf0, ?_⟩
    intro users' cp' nowTs' pw' hpw' hlt'
    have hla : lockActive
        (recordFailure cfg (pyStrip accRaw) maxTries lockSeconds nowTs)
        (pyStrip accRaw) nowTs' = true :=
      lockActive_true _ _ _ _ _ hlock (pyParseInt_intToStr _) hlt'
    rw [login_locked_branch users' cp' maxTries lockSeconds _ nowTs' accRaw pw'
      hacc hpw' hla]

/-- Witness for C1 at a concrete input: account `carol` is absent from the
user table and already has 5 recorded failures; the sixth failure locks. -/
theorem C1_threshold_lock_policy_witness :
    (login usersEx cpEx 6 900 fail5Cfg 0 "carol" "zzz").result
        = .rejected "帳號或密碼錯誤"
    ∧ (login usersEx cpEx 6 900 fail5Cfg 0 "carol" "zzz").result.status = 401
    ∧ (∀ m, (login usersEx cpEx 6 900 fail5Cfg 0 "carol" "zzz").result
        ≠ .locked m)
    ∧ (readFailCount fail5Cfg "carol" + 1 < 6 →
        Config.get (login usersEx cpEx 6 900 fail5Cfg 0 "carol" "zzz").config
            (failKeyOf "carol")
          = some (intToStr (readFailCount fail5Cfg "carol" + 1))
        ∧ Config.get (login usersEx cpEx 6 900 fail5Cfg 0 "carol" "zzz").config
            (lockKeyOf "carol") = Config.get fail5Cfg (lockKeyOf "carol"))
    ∧ (6 ≤ readFailCount fail5Cfg "carol" + 1 →
        Config.get (login usersEx cpEx 6 900 fail5Cfg 0 "carol" "zzz").config
            (lockKeyOf "carol") = some (intToStr (0 + 900))
        ∧ Config.get (login usersEx cpEx 6 900 fail5Cfg 0 "carol" "zzz").config
            (failKeyOf "carol") = some "0"
        ∧ ∀ (users' : String → Option UserRec) (cp' : UserRec → String → Bool)
            (nowTs' : Int) (pw' : String), pw' ≠ "" → nowTs' < 0 + 900 →
            (login users' cp' 6 900
              (login usersEx cpEx 6 900 fail5Cfg 0 "carol" "zzz").config
              nowTs' "carol" pw').result
              = .locked "帳號暫時鎖定，請稍後再試") :=
  C1_threshold_lock_policy usersEx cpEx 6 900 fail5Cfg 0 "carol" "zzz" "carol"
    (login usersEx cpEx 6 900 fail5Cfg 0 "carol" "zzz")
    (by decide) rfl (by decide) (by decide) (by decide) (Or.inl (by decide))

/-- **C2**: while the ledger holds a lock-expiry with now strictly below it,
`login` returns Locked (HTTP 429) with the config table unchanged and no
session set. The user table `users` and the verifier `cp` are universally
quantified and absent from the right-hand side, so the outcome is
independent of both: the Credential Store is not read and the Password
Verifier is not invoked. -/
theorem C2_locked_short_circuit
    (users : String → Option UserRec) (cp : UserRec → String → Bool)
    (maxTries lockSeconds : Int) (cfg : ConfigStore) (nowTs : Int)
    (accRaw pw s : String) (le : Int)
    (hacc : pyStrip accRaw ≠ "") (hpw : pw ≠ "")
    (hs : Config.get cfg (lockKeyOf (pyStrip accRaw)) = some s)
    (hp : pyParseInt s = some le) (hlt : nowTs < le) :
    login users cp maxTries lockSeconds cfg nowTs accRaw pw
      = ⟨.locked "帳號暫時鎖定，請稍後再試", cfg, none⟩ :=
  login_locked_branch users cp maxTries lockSeconds cfg nowTs accRaw pw hacc hpw
    (lockActive_true cfg (pyStrip accRaw) nowTs s le hs hp hlt)

/-- Witness for C2: `alice` is locked until timestamp 1000 and attempts at
time 100 with her correct password; the ledger is untouched. -/
theorem C2_locked_short_circuit_witness :
    login usersEx cpEx 6 900 lockedCfg 100 "alice" "secret"
      = ⟨.locked "帳號暫時鎖定，請稍後再試", lockedCfg, none⟩ :=
  C2_locked_short_circuit usersEx cpEx 6 900 lockedCfg 100 "alice" "secret"
    "1000" 1000 (by decide) (by decide) (by decide) (by decide) (by decide)

/-- **C3 (amended)**: a fully successful login stores `'0'` under the
failure key, stores the empty string under the lock key (which the lock test
treats as no lock, at every time), touches no other key, sets the session
uid, and returns Success with the user. No last-success timestamp is
recorded — see the counterexample. -/
theorem C3_success_resets_ledger
    (users : String → Option UserRec) (cp : UserRec → String → Bool)
    (maxTries lockSeconds : Int) (cfg : ConfigStore) (nowTs : Int)
    (accRaw pw : String) (u : UserRec) (out : LoginOutcome)
    (hout : out = login users cp maxTries lockSeconds cfg nowTs accRaw pw)
    (hacc : pyStrip accRaw ≠ "") (hpw : pw ≠ "")
    (hnl : lockActive cfg (pyStrip accRaw) nowTs = false)
    (hu : users (pyStrip accRaw) = some u) (hcp : cp u pw = true)
    (hen : u.enabled = true) :
    out.result = .success u
    ∧ out.sessionUid = some u.id
    ∧ Config.get out.config (failKeyOf (pyStrip accRaw)) = some "0"
    ∧ Config.get out.config (lockKeyOf (pyStrip accRaw)) = some ""
    ∧ (∀ t, lockActive out.config (pyStrip accRaw) t = false)
    ∧ (∀ k, k ≠ failKeyOf (pyStrip accRaw) → k ≠ lockKeyOf (pyStrip accRaw) →
        Config.get out.config k = Config.get cfg k) := by
  subst hout
  rw [login_success_branch users cp maxTries lockSeconds cfg nowTs accRaw pw u
    hacc hpw hnl hu hcp hen]
  refine ⟨rfl, rfl, ?_, Config.get_set_same _ _ _, ?_, ?_⟩
  · rw [Config.get_set_other _ _ _ _ (failKeyOf_ne_lockKeyOf _),
      Config.get_set_same]
  · intro t
    rw [lockActive, Config.get_set_same]
    simp
  · intro k hk1 hk2
    rw [Config.get_set_other _ _ _ _ hk2, Config.get_set_other _ _ _ _ hk1]

/-- Witness for the amended C3: `alice` logs in successfully on an empty
ledger at time 100. -/
theorem C3_success_resets_ledger_witness :
    (login usersEx cpEx 6 900 emptyCfg 100 "alice" "secret").result
        = .success aliceUser
    ∧ (login usersEx cpEx 6 900 emptyCfg 100 "alice" "secret").sessionUid
        = some aliceUser.id
    ∧ Config.get (login usersEx cpEx 6 900 emptyCfg 100 "alice" "secret").config
        (failKeyOf "alice") = some "0"
    ∧ Config.get (login usersEx cpEx 6 900 emptyCfg 100 "alice" "secret").config
        (lockKeyOf "alice") = some ""
    ∧ (∀ t, lockActive
        (login usersEx cpEx 6 900 emptyCfg 100 "alice" "secret").config
        "alice" t = false)
    ∧ (∀ k, k ≠ failKeyOf "alice" → k ≠ lockKeyOf "alice" →
        Config.get (login usersEx cpEx 6 900 emptyCfg 100 "alice" "secret").config
          k = Config.get emptyCfg k) :=
  C3_success_resets_ledger usersEx cpEx 6 900 emptyCfg 100 "alice" "secret"
    aliceUser (login usersEx cpEx 6 900 emptyCfg 100 "alice" "secret")
    rfl (by decide) (by decide) (by decide) (by decide) (by decide) (by decide)

/-- C3 as stated is false on the code: the success path never records the
current time, so two fully successful logins from the same prior state at
different times (100 and 200) produce outcomes that are identical in every
component — no last-success timestamp exists anywhere in the post-state. -/
theorem C3_no_last_success_counterexample :
    login usersEx cpEx 6 900 emptyCfg 100 "alice" "secret"
      = login usersEx cpEx 6 900 emptyCfg 200 "alice" "secret"
    ∧ (login usersEx cpEx 6 900 emptyCfg 100 "alice" "secret").result
        = .success aliceUser := by
  have h1 := login_success_branch usersEx cpEx 6 900 emptyCfg 100 "alice"
    "secret" aliceUser (by decide) (by decide) (by decide) (by decide)
    (by decide) (by decide)
  have h2 := login_success_branch usersEx cpEx 6 900 emptyCfg 200 "alice"
    "secret" aliceUser (by decide) (by decide) (by decide) (by decide)
    (by decide) (by decide)
  rw [h1, h2]
  exact ⟨rfl, rfl⟩

/-- **C4 (amended)**: whenever `login` returns Locked it is HTTP 429 with
the fixed message `帳號暫時鎖定，請稍後再試`; no retry-after value is
computed or carried — the whole outcome is the same at any two times inside
the lock window, although the remaining durations differ. -/
theorem C4_locked_fixed_response
    (users : String → Option UserRec) (cp : UserRec → String → Bool)
    (maxTries lockSeconds : Int) (cfg : ConfigStore) (t1 t2 : Int)
    (accRaw pw s : String) (le : Int)
    (hacc : pyStrip accRaw ≠ "") (hpw : pw ≠ "")
    (hs : Config.get cfg (lockKeyOf (pyStrip accRaw)) = some s)
    (hp : pyParseInt s = some le) (h1 : t1 < le) (h2 : t2 < le) :
    (login users cp maxTries lockSeconds cfg t1 accRaw pw).result
        = .locked "帳號暫時鎖定，請稍後再試"
    ∧ (login users cp maxTries lockSeconds cfg t1 accRaw pw).result.status = 429
    ∧ login users cp maxTries lockSeconds cfg t1 accRaw pw
        = login users cp maxTries lockSeconds cfg t2 accRaw pw := by
  have e1 := login_locked_branch users cp maxTries lockSeconds cfg t1 accRaw pw
    hacc hpw (lockActive_true cfg (pyStrip accRaw) t1 s le hs hp h1)
  have e2 := login_locked_branch users cp maxTries lockSeconds cfg t2 accRaw pw
    hacc hpw (lockActive_true cfg (pyStrip accRaw) t2 s le hs hp h2)
  rw [e1, e2]
  exact ⟨rfl, rfl, rfl⟩

/-- Witness for the amended C4: `alice` locked until 1000, probed at times
100 and 500. -/
theorem C4_locked_fixed_response_witness :
    (login usersEx cpEx 6 900 lockedCfg 100 "alice" "secret").result
        = .locked "帳號暫時鎖定，請稍後再試"
    ∧ (login usersEx cpEx 6 900 lockedCfg 100 "alice" "secret").result.status
        = 429
    ∧ login usersEx cpEx 6 900 lockedCfg 100 "alice" "secret"
        = login usersEx cpEx 6 900 lockedCfg 500 "alice" "secret" :=
  C4_locked_fixed_response usersEx cpEx 6 900 lockedCfg 100 500 "alice"
    "secret" "1000" 1000 (by decide) (by decide) (by decide) (by decide)
    (by decide) (by decide)

/-- C4 as stated is false on the code: with lock-expiry 1000, the remaining
durations at times 100 and 500 differ (900 vs 500), yet the two Locked
responses are identical in every component — no retry-after value equal to
lock-expiry minus now is carried. -/
theorem C4_no_retry_after_counterexample :
    login usersEx cpEx 6 900 lockedCfg 100 "alice" "secret"
      = login usersEx cpEx 6 900 lockedCfg 500 "alice" "secret"
    ∧ (login usersEx cpEx 6 900 lockedCfg 100 "alice" "secret").result
        = .locked "帳號暫時鎖定，請稍後再試"
    ∧ (1000 : Int) - 100 ≠ 1000 - 500 := by
  have e1 := login_locked_branch usersEx cpEx 6 900 lockedCfg 100 "alice"
    "secret" (by decide) (by decide) (by decide)
  have e2 := login_locked_branch usersEx cpEx 6 900 lockedCfg 500 "alice"
    "secret" (by decide) (by decide) (by decide)
  rw [e1, e2]
  exact ⟨rfl, rfl, by decide⟩

/-- **C5 (amended)**: a disabled account presented with its correct password
never yields Success, but its response is the distinct Disabled verdict
(HTTP 403, message `帳號已停用`), distinguishable from the wrong-password
Rejected (HTTP 401, `帳號或密碼錯誤`). -/
theorem C5_disabled_distinct_response
    (users : String → Option UserRec) (cp : UserRec → String → Bool)
    (maxTries lockSeconds : Int) (cfg : ConfigStore) (nowTs : Int)
    (accRaw pw : String) (u : UserRec)
    (hacc : pyStrip accRaw ≠ "") (hpw : pw ≠ "")
    (hnl : lockActive cfg (pyStrip accRaw) nowTs = false)
    (hu : users (pyStrip accRaw) = some u) (hcp : cp u pw = true)
    (hen : u.enabled = false) :
    (login users cp maxTries lockSeconds cfg nowTs accRaw pw).result
        = .disabled "帳號已停用"
    ∧ (login users cp maxTries lockSeconds cfg nowTs accRaw pw).result.status
        = 403
    ∧ (∀ v, (login users cp maxTries lockSeconds cfg nowTs accRaw pw).result
        ≠ .success v)
    ∧ (∀ m, (login users cp maxTries lockSeconds cfg nowTs accRaw pw).result
        ≠ .rejected m) := by
  rw [login_disabled_branch users cp maxTries lockSeconds cfg nowTs accRaw pw u
    hacc hpw hnl hu hcp hen]
  exact ⟨rfl, rfl, fun v h => LoginResult.noConfusion h,
    fun m h => LoginResult.noConfusion h⟩

/-- Witness for the amended C5: disabled `bob` with the correct password. -/
theorem C5_disabled_distinct_response_witness :
    (login usersEx cpEx 6 900 emptyCfg 100 "bob" "secret").result
        = .disabled "帳號已停用"
    ∧ (login usersEx cpEx 6 900 emptyCfg 100 "bob" "secret").result.status
        = 403
    ∧ (∀ v, (login usersEx cpEx 6 900 emptyCfg 100 "bob" "secret").result
        ≠ .success v)
    ∧ (∀ m, (login usersEx cpEx 6 900 emptyCfg 100 "bob" "secret").result
        ≠ .rejected m) :=
  C5_disabled_distinct_response usersEx cpEx 6 900 emptyCfg 100 "bob" "secret"
    bobUser (by decide) (by decide) (by decide) (by decide) (by decide)
    (by decide)

/-- C5 as stated is false on the code: disabled `bob` with the correct
password gets `帳號已停用` with status 403, while the wrong-password case
gets `帳號或密碼錯誤` with status 401 — different verdict, status code and
message. -/
theorem C5_disabled_distinguishable_counterexample :
    (login usersEx cpEx 6 900 emptyCfg 100 "bob" "secret").result
        = .disabled "帳號已停用"
    ∧ (login usersEx cpEx 6 900 emptyCfg 100 "bob" "wrongpw").result
        = .rejected "帳號或密碼錯誤"
    ∧ (login usersEx cpEx 6 900 emptyCfg 100 "bob" "secret").result
        ≠ (login usersEx cpEx 6 900 emptyCfg 100 "bob" "wrongpw").result
    ∧ (login usersEx cpEx 6 900 emptyCfg 100 "bob" "secret").result.status
        = 403
    ∧ (login usersEx cpEx 6 900 emptyCfg 100 "bob" "wrongpw").result.status
        = 401 := by
  refine ⟨by decide, by decide, by decide, by decide, by decide⟩

/-- **C6** fails on the session stack (code bug): `admin.py require_roles`
resolves the session to a fresh user-record read but never re-checks the
`enabled` flag, so the very next guard check after disabling still
authorizes the session artifact; the bearer-token guard
(`auth_fastapi.get_current_user`) does reject it with the 403 disabled
exception. Here `bobUser` is disabled, session uid 2 resolves to him, and
the session guard authorizes him for the teacher/admin area. -/
theorem C6_session_guard_ignores_disabled :
    bobUser.enabled = false
    ∧ require_roles ["teacher", "admin"] usersByIdEx (some 2)
        = .authorized bobUser
    ∧ get_current_user usersEx (some (some "bob")) = .disabledException := by
  refine ⟨rfl, by decide, by decide⟩

/-- **C7**: a lock-expiry at or before `now` does not block the attempt —
the result is never Locked, whatever the user table and verifier — and a
failing attempt from the post-lock state (failure counter 0, as the
lock-setting attempt left it) stores `'1'` and restarts the counter at 1. -/
theorem C7_expired_lock_not_blocking
    (users : String → Option UserRec) (cp : UserRec → String → Bool)
    (maxTries lockSeconds : Int) (cfg : ConfigStore) (nowTs : Int)
    (accRaw pw s : String) (le : Int)
    (hacc : pyStrip accRaw ≠ "") (hpw : pw ≠ "")
    (hs : Config.get cfg (lockKeyOf (pyStrip accRaw)) = some s)
    (hp : pyParseInt s = some le) (hge : le ≤ nowTs)
    (hfc : readFailCount cfg (pyStrip accRaw) = 0)
    (hmt : 1 < maxTries) :
    (∀ m, (login users cp maxTries lockSeconds cfg nowTs accRaw pw).result
      ≠ .locked m)
    ∧ ((users (pyStrip accRaw) = none
          ∨ ∃ u, users (pyStrip accRaw) = some u ∧ cp u pw = false) →
        (login users cp maxTries lockSeconds cfg nowTs accRaw pw).result
            = .rejected "帳號或密碼錯誤"
        ∧ Config.get
            (login users cp maxTries lockSeconds cfg nowTs accRaw pw).config
            (failKeyOf (pyStrip accRaw)) = some "1"
        ∧ readFailCount
            (login users cp maxTries lockSeconds cfg nowTs accRaw pw).config
            (pyStrip accRaw) = 1) := by
  have hnl := lockActive_false_expired cfg (pyStrip accRaw) nowTs s le hs hp hge
  refine ⟨fun m =>
    login_not_locked_result users cp maxTries lockSeconds cfg nowTs accRaw pw
      hnl m, ?_⟩
  intro hfail
  have hbranch : login users cp maxTries lockSeconds cfg nowTs accRaw pw
      = ⟨.rejected "帳號或密碼錯誤",
         recordFailure cfg (pyStrip accRaw) maxTries lockSeconds nowTs, none⟩ := by
    rcases hfail with hu | ⟨u, hu, hcp⟩
    · exact login_fail_none_branch users cp maxTries lockSeconds cfg nowTs
        accRaw pw hacc hpw hnl hu
    · exact login_fail_badpw_branch users cp maxTries lockSeconds cfg nowTs
        accRaw pw u hacc hpw hnl hu hcp
  rw [hbranch]
  obtain ⟨hfkey, _⟩ :=
    recordFailure_below cfg (pyStrip accRaw) maxTries lockSeconds nowTs
      (by rw [hfc]; omega)
  have h1 : Config.get
      (recordFailure cfg (pyStrip accRaw) maxTries lockSeconds nowTs)
      (failKeyOf (pyStrip accRaw)) = some "1" := by
    rw [hfkey, hfc]
    decide
  refine ⟨rfl, h1, ?_⟩
  rw [readFailCount, h1]
  decide

/-- Witness for C7: `carol` (absent from the user table) had a lock that
expired at time 50 and counter 0; at time 100 her failed attempt is
rejected, not locked, and the counter restarts at 1. -/
theorem C7_expired_lock_not_blocking_witness :
    (∀ m, (login usersEx cpEx 6 900 expiredCfg 100 "carol" "zzz").result
      ≠ .locked m)
    ∧ ((usersEx (pyStrip "carol") = none
          ∨ ∃ u, usersEx (pyStrip "carol") = some u ∧ cpEx u "zzz" = false) →
        (login usersEx cpEx 6 900 expiredCfg 100 "carol" "zzz").result
            = .rejected "帳號或密碼錯誤"
        ∧ Config.get
            (login usersEx cpEx 6 900 expiredCfg 100 "carol" "zzz").config
            (failKeyOf (pyStrip "carol")) = some "1"
        ∧ readFailCount
            (login usersEx cpEx 6 900 expiredCfg 100 "carol" "zzz").config
            (pyStrip "carol") = 1) :=
  C7_expired_lock_not_blocking usersEx cpEx 6 900 expiredCfg 100 "carol" "zzz"
    "50" 50 (by decide) (by decide) (by decide) (by decide) (by decide)
    (by decide) (by decide)

/-- **C9**: a login attempt by an existing user whose password verifies but
whose account is disabled leaves the config table — failure counter and
lock-expiry included — completely unchanged and sets no session uid,
whether or not a lock is currently active. -/
theorem C9_disabled_attempt_frame
    (users : String → Option UserRec) (cp : UserRec → String → Bool)
    (maxTries lockSeconds : Int) (cfg : ConfigStore) (nowTs : Int)
    (accRaw pw : String) (u : UserRec)
    (hacc : pyStrip accRaw ≠ "") (hpw : pw ≠ "")
    (hu : users (pyStrip accRaw) = some u) (hcp : cp u pw = true)
    (hen : u.enabled = false) :
    (login users cp maxTries lockSeconds cfg nowTs accRaw pw).config = cfg
    ∧ (login users cp maxTries lockSeconds cfg nowTs accRaw pw).sessionUid
        = none := by
  cases hl : lockActive cfg (pyStrip accRaw) nowTs with
  | true =>
    rw [login_locked_branch users cp maxTries lockSeconds cfg nowTs accRaw pw
      hacc hpw hl]
    exact ⟨rfl, rfl⟩
  | false =>
    rw [login_disabled_branch users cp maxTries lockSeconds cfg nowTs accRaw pw
      u hacc hpw hl hu hcp hen]
    exact ⟨rfl, rfl⟩

/-- Witness for C9: disabled `bob` with the correct password on an empty
ledger; the ledger stays empty and no session is set. -/
theorem C9_disabled_attempt_frame_witness :
    (login usersEx cpEx 6 900 emptyCfg 100 "bob" "secret").config = emptyCfg
    ∧ (login usersEx cpEx 6 900 emptyCfg 100 "bob" "secret").sessionUid
        = none :=
  C9_disabled_attempt_frame usersEx cpEx 6 900 emptyCfg 100 "bob" "secret"
    bobUser (by decide) (by decide) (by decide) (by decide) (by decide)

/-- **C10**: when the session carries a non-zero uid that no longer resolves
to a user record, `me` dereferences the absent record and raises
(`AttributeError`, surfacing as a 500) instead of returning the null body;
the null body is produced exactly when the session uid is falsy (absent, or
the unreachable value 0). -/
theorem C10_me_dangling_uid (users : Int → Option UserRec) (i : Int)
    (hi : i ≠ 0) (habsent : users i = none) :
    me users (some i) = .attributeError
    ∧ me users none = .nullResponse
    ∧ (∀ j : Int, me users (some j) = .nullResponse → j = 0) := by
  refine ⟨?_, rfl, ?_⟩
  · rw [me]
    simp [hi, habsent]
  · intro j hj
    by_contra hj0
    cases hu : users j with
    | none =>
      rw [me] at hj
      simp [hj0, hu] at hj
    | some u =>
      rw [me] at hj
      simp [hj0, hu] at hj

/-- Witness for C10: session uid 7 with an empty user table. -/
theorem C10_me_dangling_uid_witness :
    me (fun _ => none) (some 7) = .attributeError
    ∧ me (fun _ => none) none = .nullResponse
    ∧ (∀ j : Int, me (fun _ => none) (some j) = .nullResponse → j = 0) :=
  C10_me_dangling_uid (fun _ => none) 7 (by decide) rfl

example : (login usersEx cpEx 6 900 emptyCfg 100 "alice" "secret").result
    = .success aliceUser := by decide
example : (login usersEx cpEx 6 900 lockedCfg 100 "alice" "secret").result
    = .locked "帳號暫時鎖定，請稍後再試" := by decide
example : (login usersEx cpEx 6 900 emptyCfg 100 "bob" "secret").result
    = .disabled "帳號已停用" := by decide
example : (login usersEx cpEx 6 900 fail5Cfg 0 "carol" "zzz").result
    = .rejected "帳號或密碼錯誤" := by decide
example :
    Config.get (login usersEx cpEx 6 900 fail5Cfg 0 "carol" "zzz").config
      (lockKeyOf "carol") = some "900" := by decide
example :
    Config.get (login usersEx cpEx 6 900 emptyCfg 0 "carol" "zzz").config
      (failKeyOf "carol") = some "1" := by decide
example : me usersByIdEx (some 7) = .attributeError := by decide
example : require_roles ["teacher", "admin"] usersByIdEx (some 2)
    = .authorized bobUser := by decide
